import Mathlib

/-!
Verification development for the `llm_comparator` error taxonomy and
pattern-based error classification engine
(`src/python/src/llm_comparator/error_taxonomy.py` and
`src/python/src/llm_comparator/error_classifier.py`).

Numbers: the Python code computes with floats whose values here
(0.6, 0.1, 0.05, ...) are all small decimal constants; we model them
exactly as rationals (`ℚ`).

Strings: Python strings are modelled as Lean `String` / `List Char`;
`s.lower()` is `String.toLower` / `Char.toLower` (all catalog data is
ASCII), and Python's substring test `a in b` is `List.isInfixOf`.

Regular expressions: the taxonomy patterns use only literals, `.`,
`.*` and alternation, all under `(?i)`.  We embed them as an explicit
AST (`Regex`) with a Brzozowski-derivative matcher; case-insensitivity
is modelled by lowercasing the subject and writing the literals in
lowercase.  `re.search(p, s)` is truthy iff some contiguous substring
of `s` matches `p`, which `Regex.searchIn` decides exactly.

Python's `finditer` (used only by the classifier's detection pass) is
abstracted as a `Matcher` parameter producing the list of match spans;
all classifier theorems hold for every such matcher, hence in
particular for the real regex engine.
-/

/-- Abstract syntax of the (tiny) regex fragment used by the taxonomy
patterns: empty language, empty word, single character, `.`
(any character except newline, as in Python without `DOTALL`),
concatenation, alternation and Kleene star. -/
inductive Regex : Type where
  | nul  : Regex
  | eps  : Regex
  | chr  : Char → Regex
  | dot  : Regex
  | seq  : Regex → Regex → Regex
  | alt  : Regex → Regex → Regex
  | star : Regex → Regex
deriving DecidableEq

namespace Regex

/-- Does the regex accept the empty word? -/
def nullable : Regex → Bool
  | .nul => false
  | .eps => true
  | .chr _ => false
  | .dot => false
  | .seq a b => nullable a && nullable b
  | .alt a b => nullable a || nullable b
  | .star _ => true

/-- Smart concatenation (simplifies the `nul`/`eps` cases so that
derivatives stay small; language-equivalent to `seq`). -/
def mkSeq : Regex → Regex → Regex
  | .nul, _ => .nul
  | _, .nul => .nul
  | .eps, b => b
  | a, .eps => a
  | a, b => .seq a b

/-- Smart alternation (simplifies the `nul` cases). -/
def mkAlt : Regex → Regex → Regex
  | .nul, b => b
  | a, .nul => a
  | a, b => .alt a b

/-- Brzozowski derivative of a regex by one character. -/
def deriv : Regex → Char → Regex
  | .nul, _ => .nul
  | .eps, _ => .nul
  | .chr c, a => if a = c then .eps else .nul
  | .dot, a => if a = '\n' then .nul else .eps
  | .seq r s, a =>
      if nullable r then mkAlt (mkSeq (deriv r a) s) (deriv s a)
      else mkSeq (deriv r a) s
  | .alt r s, a => mkAlt (deriv r a) (deriv s a)
  | .star r, a => mkSeq (deriv r a) (.star r)

/-- Does the regex match the whole character list? -/
def matches' : Regex → List Char → Bool
  | r, [] => nullable r
  | r, c :: cs => matches' (deriv r c) cs

/-- Does the regex match some prefix of the character list? -/
def matchesPref : Regex → List Char → Bool
  | r, [] => nullable r
  | r, c :: cs => nullable r || matchesPref (deriv r c) cs

/-- Does the regex match some contiguous substring of the character
list?  This is exactly the truthiness of Python's `re.search`. -/
def searchIn : Regex → List Char → Bool
  | r, [] => nullable r
  | r, c :: cs => matchesPref r (c :: cs) || searchIn r cs

/-- Literal word: the concatenation of its characters. -/
def rlit (s : String) : Regex :=
  s.toList.foldr (fun c r => .seq (.chr c) r) .eps

/-- Concatenation of a list of regexes. -/
def rcat (l : List Regex) : Regex := l.foldr .seq .eps

/-- Alternation of a list of regexes (empty list: empty language). -/
def ralts (l : List Regex) : Regex := l.foldr .alt .nul

/-- `.*` : any (non-newline) characters. -/
def dotStar : Regex := .star .dot

end Regex

/-- `ErrorCategory` (error_taxonomy.py): the fixed closed set of 10
primary error categories. -/
inductive ErrorCategory : Type where
  | factual
  | reasoning
  | coherence
  | relevance
  | bias
  | safety
  | completeness
  | consistency
  | formatting
  | hallucination
deriving DecidableEq

/-- `ErrorSeverity` (error_taxonomy.py): the 5 severity levels. -/
inductive ErrorSeverity : Type where
  | critical
  | high
  | medium
  | low
  | negligible
deriving DecidableEq

/-- `ErrorType` (error_taxonomy.py): name, owning category, human
description, search keywords, detection patterns (embedded as `Regex`
ASTs, see the header comment), default severity. -/
structure ErrorType : Type where
  name : String
  category : ErrorCategory
  description : String
  keywords : List String
  patterns : List Regex
  severity_default : ErrorSeverity
deriving DecidableEq

open Regex in
/-- The fixed catalog built by `ErrorTaxonomy._initialize_error_types`,
as the list of the dict's values in insertion order.  Each record's
fields are transcribed from error_taxonomy.py; each regex AST
transcribes the pattern string quoted in the comment above it
(lowercase literals + lowercased subject model `(?i)`). -/
def error_types_list : List ErrorType := [
  -- "factual_incorrect", pattern r"(?i)(incorrect|wrong|false|inaccurate|mistaken).*fact"
  { name := "Factual Incorrectness",
    category := .factual,
    description := "Information that is objectively wrong or inaccurate",
    keywords := ["incorrect", "wrong", "false", "inaccurate", "mistaken", "error"],
    patterns := [rcat [ralts [rlit "incorrect", rlit "wrong", rlit "false",
                              rlit "inaccurate", rlit "mistaken"], dotStar, rlit "fact"]],
    severity_default := .high },
  -- "factual_outdated", pattern r"(?i)(outdated|obsolete|deprecated).*information"
  { name := "Outdated Information",
    category := .factual,
    description := "Information that was correct but is now outdated",
    keywords := ["outdated", "old", "obsolete", "deprecated", "superseded"],
    patterns := [rcat [ralts [rlit "outdated", rlit "obsolete", rlit "deprecated"],
                       dotStar, rlit "information"]],
    severity_default := .medium },
  -- "logical_fallacy", pattern r"(?i)(logical.*fallacy|flawed.*reasoning|contradictory)"
  { name := "Logical Fallacy",
    category := .reasoning,
    description := "Flawed logical reasoning or argumentation",
    keywords := ["fallacy", "illogical", "contradictory", "inconsistent logic"],
    patterns := [ralts [rcat [rlit "logical", dotStar, rlit "fallacy"],
                        rcat [rlit "flawed", dotStar, rlit "reasoning"],
                        rlit "contradictory"]],
    severity_default := .high },
  -- "causal_confusion", pattern r"(?i)(incorrect.*causation|wrong.*cause|flawed.*reasoning)"
  { name := "Causal Confusion",
    category := .reasoning,
    description := "Incorrect cause-effect relationships",
    keywords := ["cause", "effect", "because", "therefore", "leads to"],
    patterns := [ralts [rcat [rlit "incorrect", dotStar, rlit "causation"],
                        rcat [rlit "wrong", dotStar, rlit "cause"],
                        rcat [rlit "flawed", dotStar, rlit "reasoning"]]],
    severity_default := .medium },
  -- "internal_contradiction", pattern r"(?i)(contradicts|conflicts.*with|inconsistent)"
  { name := "Internal Contradiction",
    category := .coherence,
    description := "Statements that contradict each other within the response",
    keywords := ["contradicts", "inconsistent", "conflicts", "opposite"],
    patterns := [ralts [rlit "contradicts",
                        rcat [rlit "conflicts", dotStar, rlit "with"],
                        rlit "inconsistent"]],
    severity_default := .high },
  -- "unclear_structure", pattern r"(?i)(unclear.*structure|disorganized|confusing.*flow)"
  { name := "Unclear Structure",
    category := .coherence,
    description := "Poor organization or flow of ideas",
    keywords := ["unclear", "confusing", "disorganized", "jumbled"],
    patterns := [ralts [rcat [rlit "unclear", dotStar, rlit "structure"],
                        rlit "disorganized",
                        rcat [rlit "confusing", dotStar, rlit "flow"]]],
    severity_default := .medium },
  -- "off_topic", pattern r"(?i)(off.topic|irrelevant|unrelated.*to.*question)"
  { name := "Off-topic Response",
    category := .relevance,
    description := "Response doesn\x27t address the question or prompt",
    keywords := ["off-topic", "irrelevant", "unrelated", "doesn\x27t answer"],
    patterns := [ralts [rcat [rlit "off", .dot, rlit "topic"],
                        rlit "irrelevant",
                        rcat [rlit "unrelated", dotStar, rlit "to", dotStar, rlit "question"]]],
    severity_default := .high },
  -- "partial_relevance", pattern r"(?i)(partially.*addresses|incomplete.*answer|misses.*point)"
  { name := "Partial Relevance",
    category := .relevance,
    description := "Response only partially addresses the prompt",
    keywords := ["partially", "incomplete", "misses", "doesn\x27t fully"],
    patterns := [ralts [rcat [rlit "partially", dotStar, rlit "addresses"],
                        rcat [rlit "incomplete", dotStar, rlit "answer"],
                        rcat [rlit "misses", dotStar, rlit "point"]]],
    severity_default := .medium },
  -- "demographic_bias", pattern r"(?i)(biased.*against|stereotyping|discriminatory)"
  { name := "Demographic Bias",
    category := .bias,
    description := "Unfair treatment based on demographic characteristics",
    keywords := ["biased", "stereotyping", "discrimination", "unfair"],
    patterns := [ralts [rcat [rlit "biased", dotStar, rlit "against"],
                        rlit "stereotyping", rlit "discriminatory"]],
    severity_default := .critical },
  -- "cultural_bias", pattern r"(?i)(cultural.*bias|western.*centric|narrow.*perspective)"
  { name := "Cultural Bias",
    category := .bias,
    description := "Assumptions based on specific cultural perspectives",
    keywords := ["cultural", "western", "assumption", "perspective"],
    patterns := [ralts [rcat [rlit "cultural", dotStar, rlit "bias"],
                        rcat [rlit "western", dotStar, rlit "centric"],
                        rcat [rlit "narrow", dotStar, rlit "perspective"]]],
    severity_default := .high },
  -- "harmful_content", pattern r"(?i)(harmful|dangerous|unsafe|toxic.*content)"
  { name := "Harmful Content",
    category := .safety,
    description := "Content that could cause harm or promote dangerous activities",
    keywords := ["harmful", "dangerous", "unsafe", "risky", "toxic"],
    patterns := [ralts [rlit "harmful", rlit "dangerous", rlit "unsafe",
                        rcat [rlit "toxic", dotStar, rlit "content"]]],
    severity_default := .critical },
  -- "misinformation", pattern r"(?i)(misinformation|misleading.*claim|false.*information)"
  { name := "Misinformation",
    category := .safety,
    description := "False information that could mislead users",
    keywords := ["misinformation", "misleading", "false claim", "conspiracy"],
    patterns := [ralts [rlit "misinformation",
                        rcat [rlit "misleading", dotStar, rlit "claim"],
                        rcat [rlit "false", dotStar, rlit "information"]]],
    severity_default := .critical },
  -- "incomplete_answer", pattern r"(?i)(incomplete.*answer|missing.*information|doesn't.*cover)"
  { name := "Incomplete Answer",
    category := .completeness,
    description := "Response doesn\x27t fully address all aspects of the question",
    keywords := ["incomplete", "missing", "partial", "doesn\x27t cover"],
    patterns := [ralts [rcat [rlit "incomplete", dotStar, rlit "answer"],
                        rcat [rlit "missing", dotStar, rlit "information"],
                        rcat [rlit "doesn\x27t", dotStar, rlit "cover"]]],
    severity_default := .medium },
  -- "lacks_detail", pattern r"(?i)(lacks.*detail|too.*superficial|insufficient.*depth)"
  { name := "Lacks Detail",
    category := .completeness,
    description := "Response is too superficial or lacks necessary detail",
    keywords := ["superficial", "lacks detail", "too brief", "vague"],
    patterns := [ralts [rcat [rlit "lacks", dotStar, rlit "detail"],
                        rcat [rlit "too", dotStar, rlit "superficial"],
                        rcat [rlit "insufficient", dotStar, rlit "depth"]]],
    severity_default := .low },
  -- "format_inconsistency", pattern r"(?i)(inconsistent.*format|mixed.*style|formatting.*error)"
  { name := "Format Inconsistency",
    category := .consistency,
    description := "Inconsistent formatting or style within the response",
    keywords := ["inconsistent", "formatting", "style", "mixed"],
    patterns := [ralts [rcat [rlit "inconsistent", dotStar, rlit "format"],
                        rcat [rlit "mixed", dotStar, rlit "style"],
                        rcat [rlit "formatting", dotStar, rlit "error"]]],
    severity_default := .low },
  -- "fabricated_facts", pattern r"(?i)(fabricated|made.*up|invented.*fact|fictional.*claim)"
  { name := "Fabricated Facts",
    category := .hallucination,
    description := "Made-up information presented as factual",
    keywords := ["fabricated", "made up", "invented", "fictional"],
    patterns := [ralts [rlit "fabricated",
                        rcat [rlit "made", dotStar, rlit "up"],
                        rcat [rlit "invented", dotStar, rlit "fact"],
                        rcat [rlit "fictional", dotStar, rlit "claim"]]],
    severity_default := .critical },
  -- "false_citations", pattern r"(?i)(false.*citation|fake.*reference|non.existent.*source)"
  { name := "False Citations",
    category := .hallucination,
    description := "Non-existent or incorrect citations and references",
    keywords := ["false citation", "fake reference", "non-existent", "made up source"],
    patterns := [ralts [rcat [rlit "false", dotStar, rlit "citation"],
                        rcat [rlit "fake", dotStar, rlit "reference"],
                        rcat [rlit "non", .dot, rlit "existent", dotStar, rlit "source"]]],
    severity_default := .high }
]

/-- `ErrorTaxonomy.get_all_categories`: `list(ErrorCategory)`, the 10
enum members in declaration order. -/
def get_all_categories : List ErrorCategory :=
  [.factual, .reasoning, .coherence, .relevance, .bias, .safety,
   .completeness, .consistency, .formatting, .hallucination]

/-- `ErrorTaxonomy.get_category_weight`: the fixed weight table from
`_initialize_category_weights`.  The table maps every one of the 10
categories, so the `.get(category, 0.5)` fallback of the Python code
is unreachable for the closed enum and the lookup is a total match. -/
def get_category_weight : ErrorCategory → ℚ
  | .safety => 1
  | .factual => 9/10
  | .hallucination => 9/10
  | .bias => 8/10
  | .reasoning => 7/10
  | .relevance => 6/10
  | .coherence => 1/2
  | .completeness => 2/5
  | .consistency => 3/10
  | .formatting => 1/5

/-- Is the first list a prefix of the second? (boolean helper for the
substring test). -/
def listStartsWith : List Char → List Char → Bool
  | [], _ => true
  | _ :: _, [] => false
  | a :: as, b :: bs => a = b && listStartsWith as bs

/-- Is the first list a contiguous sublist of the second? -/
def listInfixB : List Char → List Char → Bool
  | needle, [] => needle.isEmpty
  | needle, b :: t => listStartsWith needle (b :: t) || listInfixB needle t

/-- Python's `s.lower()` (character-wise; the catalog data is ASCII). -/
def pyLower (s : String) : String := ⟨s.data.map Char.toLower⟩

/-- Python's substring test `needle in hay` on strings. -/
def pyInStr (needle hay : String) : Bool :=
  listInfixB needle.toList hay.toList

/-- `ErrorTaxonomy.search_error_types`: lowercase the query, then keep
every error type for which (a) some keyword (lowercased) is a
substring of the lowercased query, else (b) the lowercased query is a
substring of the lowercased description, else (c) some pattern matches
the query case-insensitively (`re.search` with `re.IGNORECASE`).
The Python append/continue/break control flow appends each error type
at most once, exactly when (a) or (b) or (c) holds, preserving catalog
order — i.e. it filters the catalog by the disjunction. -/
def search_error_types (query : String) : List ErrorType :=
  let query_lower := pyLower query
  error_types_list.filter fun error_type =>
    if error_type.keywords.any (fun keyword => pyInStr (pyLower keyword) query_lower) then
      true
    else if pyInStr query_lower (pyLower error_type.description) then
      true
    else
      error_type.patterns.any (fun pattern => Regex.searchIn pattern query_lower.toList)

/-- `DetectedError` (error_classifier.py): one match instance. -/
structure DetectedError : Type where
  error_type : ErrorType
  confidence : ℚ
  evidence : List Char
  -- `location`: Python formats "Position {start}-{end}"; we keep the
  -- character-offset pair itself.
  location : Option (ℕ × ℕ)
  severity_override : Option ErrorSeverity
deriving DecidableEq

/-- `DetectedError.severity`: `severity_override or severity_default`
(enum members are truthy, `None` is falsy). -/
def DetectedError.severity (e : DetectedError) : ErrorSeverity :=
  e.severity_override.getD e.error_type.severity_default

/-- The severity-multiplier table used (as two identical inline dicts)
by `_calculate_overall_error_score` and `_calculate_category_scores`.
The dict maps all five severities, so the `.get(severity, 0.5)`
fallback is unreachable for the closed enum. -/
def severity_multipliers : ErrorSeverity → ℚ
  | .critical => 1
  | .high => 4/5
  | .medium => 3/5
  | .low => 2/5
  | .negligible => 1/5

/-- The fixed context keywords of `_calculate_pattern_confidence`. -/
def error_keywords : List String :=
  ["wrong", "incorrect", "error", "mistake", "false", "inaccurate"]

/-- `ErrorClassifier._calculate_pattern_confidence`, for a match with
span `[s, e)` in `full_text`.  Transcribed line by line:
base 0.6; then `if match_length > 20: += 0.1 elif match_length > 50: += 0.2`; the
context window `full_text[max(0, s-100) : min(len, e+100)].lower()`
(Nat subtraction is Python's `max(0, s-100)`); the count of the six
fixed keywords occurring in the window (`keyword_count` here names the
loop's count); `+= min(0.2, count*0.05)`; result `min(1.0, ·)`. -/
def keyword_count (full_text : List Char) (s e : ℕ) : ℕ :=
  (error_keywords.filter fun keyword =>
    listInfixB keyword.toList
      (((full_text.drop (s - 100)).take (Nat.min full_text.length (e + 100) - (s - 100))).map
        Char.toLower)).length

/-- Continuation of `_calculate_pattern_confidence`: base 0.6; the
length-bonus chain (note the order — `> 20` is tested first, so the
`> 50` branch is unreachable, any length above 50 already satisfying
`> 20`); plus `min(0.2, keyword_count * 0.05)`; clamped by
`min(1.0, ·)`. -/
def calculate_pattern_confidence (full_text : List Char) (s e : ℕ) : ℚ :=
  let match_length := e - s
  let conf1 : ℚ :=
    if match_length > 20 then 6/10 + 1/10
    else if match_length > 50 then 6/10 + 2/10
    else 6/10
  min 1 (conf1 + min (2/10 : ℚ) ((keyword_count full_text s e : ℚ) * (5/100)))

/-- A matcher abstracts Python's `pattern.finditer(text)`: the list of
match spans `[start, end)` the regex engine reports for a compiled
pattern in a text.  All classifier theorems hold for every matcher. -/
def Matcher : Type := Regex → List Char → List (ℕ × ℕ)

/-- Keys of a list in first-occurrence order, without duplicates: the
iteration order of a Python dict built by appending under key `f e`. -/
def firstOccursBy {α β : Type} [DecidableEq β] (f : α → β) : List α → List β
  | [] => []
  | e :: es => f e :: (firstOccursBy f es).filter (fun k => k ≠ f e)

/-- `ErrorClassifier._compile_patterns`: every (pattern, error type)
pair, grouped by category in category-first-occurrence order (the
`defaultdict` keyed by `category.value`), each group in catalog order.
All 17 catalog patterns are valid regexes, so the `re.error` skip
branch never fires for this catalog. -/
def compiled_patterns : List (Regex × ErrorType) :=
  (firstOccursBy ErrorType.category error_types_list).flatMap fun category =>
    (error_types_list.filter (fun et => et.category = category)).flatMap fun error_type =>
      error_type.patterns.map fun pattern => (pattern, error_type)

/-- `ErrorClassifier._detect_pattern_based_errors`: for every compiled
pattern, one `DetectedError` per reported match, with the matched
substring as evidence and the span as location. -/
def detect_pattern_based_errors (M : Matcher) (text : List Char) : List DetectedError :=
  compiled_patterns.flatMap fun pe =>
    (M pe.1 text).map fun span =>
      { error_type := pe.2,
        confidence := calculate_pattern_confidence text span.1 span.2,
        evidence := (text.drop span.1).take (span.2 - span.1),
        location := some span,
        severity_override := none }

/-- The deduplication grouping key: (error-type name, first 50
characters of the evidence). -/
def dedup_key (e : DetectedError) : String × List Char :=
  (e.error_type.name, e.evidence.take 50)

/-- Python's `max(best :: rest, key=confidence)`: iterate, replacing
the current best only on strictly greater confidence (so on ties the
earliest maximal element wins). -/
def pyMaxByConfidence : DetectedError → List DetectedError → DetectedError
  | best, [] => best
  | best, x :: xs => pyMaxByConfidence (if x.confidence > best.confidence then x else best) xs

/-- The group of key `k` in `errors` (the `defaultdict` bucket: the
input-order sublist with that key), reduced to its highest-confidence
element; `none` for a key with an empty group (never hit for keys
drawn from `errors` itself). -/
def select_group (errors : List DetectedError) (k : String × List Char) :
    Option DetectedError :=
  match errors.filter (fun e => dedup_key e = k) with
  | [] => none
  | e :: es => some (pyMaxByConfidence e es)

/-- `ErrorClassifier._deduplicate_errors`: group by `dedup_key` (a
`defaultdict` keyed in first-occurrence order, each group in input
order), then keep from each group the highest-confidence element. -/
def deduplicate_errors (errors : List DetectedError) : List DetectedError :=
  if errors.isEmpty then []
  else (firstOccursBy dedup_key errors).filterMap (select_group errors)

/-- `ErrorClassifier._calculate_overall_error_score`: 0.0 on the empty
list; otherwise accumulate `Σ conf·w·m` and `Σ w·m` over the list
(`w` the category weight, `m` the severity multiplier), return 0.0 on
zero total weight, else `min(1.0, quotient)`. -/
def calculate_overall_error_score (detected_errors : List DetectedError) : ℚ :=
  if detected_errors.isEmpty then 0
  else
    let acc := detected_errors.foldl
      (fun (p : ℚ × ℚ) error =>
        (p.1 + error.confidence * get_category_weight error.error_type.category *
          severity_multipliers error.severity,
         p.2 + get_category_weight error.error_type.category *
          severity_multipliers error.severity))
      (0, 0)
    if acc.2 = 0 then 0 else min 1 (acc.1 / acc.2)

/-- `ErrorClassifier._calculate_category_scores`: for every category of
the fixed set, over the errors of that category accumulate
`Σ conf·m` and `Σ m` (severity multiplier only, no category weight);
score `Σ conf·m / Σ m` when the weight is positive, 0.0 for an empty
category.  Returned as the (category, score) pairs in
`get_all_categories` order. -/
def calculate_category_scores (detected_errors : List DetectedError) :
    List (ErrorCategory × ℚ) :=
  get_all_categories.map fun category =>
    let errors_in_category := detected_errors.filter fun error => error.error_type.category = category
    if errors_in_category.isEmpty then (category, 0)
    else
      let acc := errors_in_category.foldl
        (fun (p : ℚ × ℚ) error =>
          (p.1 + error.confidence * severity_multipliers error.severity,
           p.2 + severity_multipliers error.severity))
        (0, 0)
      (category, if acc.2 > 0 then acc.1 / acc.2 else 0)

/-- `ErrorAnalysisResult` (error_classifier.py). -/
structure ErrorAnalysisResult : Type where
  response_id : String
  detected_errors : List DetectedError
  overall_error_score : ℚ
  category_scores : List (ErrorCategory × ℚ)
  confidence_score : ℚ
deriving DecidableEq

/-- `ErrorClassifier.classify_errors`: pattern detection on `response`,
deduplication, the three scoring computations, and the assembled
result.  `prompt` and `use_llm_analysis` are accepted but never
consulted (the model-assisted path is disabled). -/
def classify_errors (M : Matcher) (response_id : String) (prompt : String)
    (response : String) (use_llm_analysis : Bool) : ErrorAnalysisResult :=
  let pattern_errors := detect_pattern_based_errors M response.toList
  let detected_errors := deduplicate_errors pattern_errors
  let overall_score := calculate_overall_error_score detected_errors
  let category_scores := calculate_category_scores detected_errors
  let confidence_score :=
    if detected_errors.isEmpty then 1
    else (detected_errors.foldl (fun acc error => acc + error.confidence) 0) /
         (detected_errors.length : ℚ)
  { response_id := response_id,
    detected_errors := detected_errors,
    overall_error_score := overall_score,
    category_scores := category_scores,
    confidence_score := confidence_score }

/-- Witness data: a concrete detection record. -/
def sample_error_low : DetectedError :=
  { error_type := { name := "Sample", category := .factual, description := "sample",
                    keywords := [], patterns := [], severity_default := .high },
    confidence := 3/5,
    evidence := "same evidence".toList,
    location := none,
    severity_override := none }

/-- Witness data: same dedup key as `sample_error_low` (same type name,
same evidence), strictly higher confidence. -/
def sample_error_high : DetectedError :=
  { sample_error_low with confidence := 4/5 }

section BasicLemmas

/-- A pair-accumulating fold of sums equals the pair of map-sums. -/
theorem foldl_add_pair {α : Type} (f g : α → ℚ) (l : List α) (a b : ℚ) :
    l.foldl (fun p x => (p.1 + f x, p.2 + g x)) (a, b) =
      (a + (l.map f).sum, b + (l.map g).sum) := by
  induction l generalizing a b with
  | nil => simp
  | cons x xs ih => simp [ih, add_assoc]

/-- A sum-accumulating fold equals the map-sum. -/
theorem foldl_add_map {α : Type} (f : α → ℚ) (l : List α) (a : ℚ) :
    l.foldl (fun acc x => acc + f x) a = a + (l.map f).sum := by
  induction l generalizing a with
  | nil => simp
  | cons x xs ih => simp [ih, add_assoc]

/-- `listStartsWith` decides Mathlib's prefix relation. -/
theorem listStartsWith_iff (n h : List Char) :
    listStartsWith n h = true ↔ n <+: h := by
  induction n generalizing h with
  | nil => simp [listStartsWith]
  | cons a as ih =>
    cases h with
    | nil => simp [listStartsWith]
    | cons b bs =>
      simp only [listStartsWith, Bool.and_eq_true, decide_eq_true_eq, ih,
        List.cons_prefix_cons]

/-- `listInfixB` decides Mathlib's infix (contiguous substring)
relation; i.e. Python's `needle in hay` for strings. -/
theorem listInfixB_iff (n h : List Char) :
    listInfixB n h = true ↔ n <:+: h := by
  induction h with
  | nil => simp [listInfixB, List.isEmpty_iff]
  | cons b bs ih =>
    simp [listInfixB, ih, listStartsWith_iff, List.infix_cons_iff]

/-- `Regex.matchesPref` finds a matching prefix. -/
theorem matchesPref_iff (r : Regex) (s : List Char) :
    Regex.matchesPref r s = true ↔
      ∃ l₁ l₂ : List Char, s = l₁ ++ l₂ ∧ Regex.matches' r l₁ = true := by
  induction s generalizing r with
  | nil =>
    simp only [Regex.matchesPref]
    constructor
    · intro hn
      exact ⟨[], [], rfl, hn⟩
    · rintro ⟨l₁, l₂, hs, hm⟩
      cases l₁ with
      | nil => simpa [Regex.matches'] using hm
      | cons a t => simp at hs
  | cons c cs ih =>
    simp only [Regex.matchesPref, Bool.or_eq_true, ih]
    constructor
    · rintro (hn | ⟨l₁, l₂, hs, hm⟩)
      · exact ⟨[], c :: cs, rfl, hn⟩
      · refine ⟨c :: l₁, l₂, by simp [hs], ?_⟩
        simpa [Regex.matches'] using hm
    · rintro ⟨l₁, l₂, hs, hm⟩
      cases l₁ with
      | nil =>
        left
        simpa [Regex.matches'] using hm
      | cons a l₁ =>
        right
        obtain ⟨rfl, hs2⟩ : c = a ∧ cs = l₁ ++ l₂ := by
          simpa using hs
        refine ⟨l₁, l₂, hs2, ?_⟩
        simpa [Regex.matches'] using hm

/-- `Regex.searchIn` is Python's `re.search` truthiness: some
contiguous substring matches. -/
theorem searchIn_iff (r : Regex) (s : List Char) :
    Regex.searchIn r s = true ↔
      ∃ l₁ l₂ l₃ : List Char, s = l₁ ++ l₂ ++ l₃ ∧ Regex.matches' r l₂ = true := by
  induction s with
  | nil =>
    simp only [Regex.searchIn]
    constructor
    · intro hn
      exact ⟨[], [], [], rfl, hn⟩
    · rintro ⟨l₁, l₂, l₃, hs, hm⟩
      cases l₁ with
      | cons a t => simp at hs
      | nil =>
        cases l₂ with
        | cons a t => simp at hs
        | nil => simpa [Regex.matches'] using hm
  | cons c cs ih =>
    simp only [Regex.searchIn, Bool.or_eq_true, ih, matchesPref_iff]
    constructor
    · rintro (⟨l₁, l₂, hs, hm⟩ | ⟨l₁, l₂, l₃, hs, hm⟩)
      · exact ⟨[], l₁, l₂, by simpa using hs, hm⟩
      · exact ⟨c :: l₁, l₂, l₃, by simp [hs], hm⟩
    · rintro ⟨l₁, l₂, l₃, hs, hm⟩
      cases l₁ with
      | nil =>
        left
        exact ⟨l₂, l₃, by simpa using hs, hm⟩
      | cons a l₁ =>
        right
        obtain ⟨rfl, hs2⟩ : c = a ∧ cs = l₁ ++ l₂ ++ l₃ := by
          simpa using hs
        exact ⟨l₁, l₂, l₃, hs2, hm⟩

end BasicLemmas

section DedupLemmas

/-- The Python `max` scan returns an element of its input. -/
theorem pyMax_mem (xs : List DetectedError) (best : DetectedError) :
    pyMaxByConfidence best xs ∈ best :: xs := by
  induction xs generalizing best with
  | nil => simp [pyMaxByConfidence]
  | cons x xs ih =>
    simp only [pyMaxByConfidence]
    rcases List.mem_cons.mp (ih (if x.confidence > best.confidence then x else best)) with h1 | h1
    · rw [h1]
      by_cases hc : x.confidence > best.confidence <;> simp [hc]
    · simp [h1]

/-- The Python `max` scan dominates every element of its input. -/
theorem pyMax_ge (xs : List DetectedError) : ∀ best e : DetectedError,
    e ∈ best :: xs → e.confidence ≤ (pyMaxByConfidence best xs).confidence := by
  induction xs with
  | nil =>
    intro best e he
    rcases List.mem_cons.mp he with rfl | he'
    · exact le_refl _
    · simp at he'
  | cons x xs ih =>
    intro best e he
    simp only [pyMaxByConfidence]
    by_cases hc : x.confidence > best.confidence
    · rcases List.mem_cons.mp he with rfl | he'
      · calc e.confidence ≤ x.confidence := le_of_lt hc
          _ ≤ _ := by simpa [hc] using ih x x (List.mem_cons_self x xs)
      · rcases List.mem_cons.mp he' with rfl | he''
        · simpa [hc] using ih e e (List.mem_cons_self e xs)
        · simpa [hc] using ih x e (List.mem_cons_of_mem _ he'')
    · rcases List.mem_cons.mp he with rfl | he'
      · simpa [hc] using ih e e (List.mem_cons_self e xs)
      · rcases List.mem_cons.mp he' with rfl | he''
        · calc e.confidence ≤ best.confidence := not_lt.mp hc
            _ ≤ _ := by simpa [hc] using ih best best (List.mem_cons_self best xs)
        · simpa [hc] using ih best e (List.mem_cons_of_mem _ he'')

/-- Membership in the first-occurrence key list is membership among
the mapped keys. -/
theorem firstOccursBy_mem {α β : Type} [DecidableEq β] (f : α → β) (l : List α) (k : β) :
    k ∈ firstOccursBy f l ↔ k ∈ l.map f := by
  induction l with
  | nil => simp [firstOccursBy]
  | cons e es ih =>
    by_cases hk : k = f e
    · simp [firstOccursBy, hk]
    · simp [firstOccursBy, List.mem_filter, hk, ih]

/-- The first-occurrence key list has no duplicates. -/
theorem firstOccursBy_nodup {α β : Type} [DecidableEq β] (f : α → β) (l : List α) :
    (firstOccursBy f l).Nodup := by
  induction l with
  | nil => simp [firstOccursBy]
  | cons e es ih =>
    refine List.Nodup.cons ?_ (ih.filter _)
    simp [List.mem_filter]

/-- When the mapped keys are already distinct, the first-occurrence
key list is just the mapped keys. -/
theorem firstOccursBy_of_nodup {α β : Type} [DecidableEq β] (f : α → β) (l : List α)
    (h : (l.map f).Nodup) : firstOccursBy f l = l.map f := by
  induction l with
  | nil => simp [firstOccursBy]
  | cons e es ih =>
    simp only [List.map_cons, List.nodup_cons] at h
    rw [firstOccursBy, ih h.2, List.map_cons]
    congr 1
    refine List.filter_eq_self.mpr ?_
    intro a ha
    simp only [ne_eq, decide_eq_true_eq]
    intro hae
    exact h.1 (hae ▸ ha)

/-- Every deduplicated error comes from the input and dominates (in
confidence) every input error sharing its dedup key. -/
theorem mem_dedup_max {l : List DetectedError} {e : DetectedError}
    (he : e ∈ deduplicate_errors l) :
    e ∈ l ∧ ∀ e2 ∈ l, dedup_key e2 = dedup_key e → e2.confidence ≤ e.confidence := by
  unfold deduplicate_errors at he
  split at he
  · simp at he
  · rcases List.mem_filterMap.mp he with ⟨k, hk, hgk⟩
    unfold select_group at hgk
    cases hG : l.filter (fun x => dedup_key x = k) with
    | nil => rw [hG] at hgk; simp at hgk
    | cons a as =>
      rw [hG] at hgk
      simp only [Option.some.injEq] at hgk
      have hmem : e ∈ a :: as := hgk ▸ pyMax_mem as a
      have h1 : e ∈ l.filter (fun x => dedup_key x = k) := hG ▸ hmem
      have h2 := List.mem_filter.mp h1
      have hke : dedup_key e = k := by simpa using h2.2
      refine ⟨h2.1, ?_⟩
      intro e2 he2 hk2
      have h3 : e2 ∈ l.filter (fun x => dedup_key x = k) :=
        List.mem_filter.mpr ⟨he2, by simp [hk2, hke]⟩
      have h4 : e2 ∈ a :: as := hG ▸ h3
      calc e2.confidence ≤ (pyMaxByConfidence a as).confidence := pyMax_ge as a e2 h4
        _ = e.confidence := by rw [hgk]

/-- Each key that occurs among a list's mapped dedup keys selects a
(nonempty) group whose representative carries that key; mapping
`dedup_key` over the groups' representatives returns the keys. -/
theorem filterMap_rep (l : List DetectedError) : ∀ ks : List (String × List Char),
    (∀ k ∈ ks, k ∈ l.map dedup_key) →
    ((ks.filterMap (select_group l)).map dedup_key) = ks := by
  intro ks
  induction ks with
  | nil => simp
  | cons k ks ih =>
    intro h
    have hk := h k (List.mem_cons_self k ks)
    rcases List.mem_map.mp hk with ⟨x, hx, hxk⟩
    have hxG : x ∈ l.filter (fun y => dedup_key y = k) :=
      List.mem_filter.mpr ⟨hx, by simp [hxk]⟩
    cases hG : l.filter (fun y => dedup_key y = k) with
    | nil => rw [hG] at hxG; simp at hxG
    | cons a as =>
      have hg : select_group l k = some (pyMaxByConfidence a as) := by
        unfold select_group
        rw [hG]
      rw [List.filterMap_cons_some hg, List.map_cons,
        ih (fun y hy => h y (List.mem_cons_of_mem _ hy))]
      congr 1
      have hmem : pyMaxByConfidence a as ∈ l.filter (fun y => dedup_key y = k) :=
        hG ▸ pyMax_mem as a
      simpa using (List.mem_filter.mp hmem).2

/-- The deduplicated list's keys are exactly the input's keys in
first-occurrence order. -/
theorem map_key_dedup (l : List DetectedError) :
    (deduplicate_errors l).map dedup_key = firstOccursBy dedup_key l := by
  unfold deduplicate_errors
  split
  · next hemp =>
    rw [List.isEmpty_iff.mp hemp]
    simp [firstOccursBy]
  · exact filterMap_rep l _ (fun k hk => (firstOccursBy_mem _ _ _).mp hk)

/-- The deduplicated list has pairwise distinct dedup keys. -/
theorem dedup_keys_nodup (l : List DetectedError) :
    ((deduplicate_errors l).map dedup_key).Nodup :=
  map_key_dedup l ▸ firstOccursBy_nodup _ _

/-- Every input error's key is represented in the deduplicated list. -/
theorem dedup_exists_rep (l : List DetectedError) (e : DetectedError) (he : e ∈ l) :
    ∃ f ∈ deduplicate_errors l, dedup_key f = dedup_key e := by
  have h1 : dedup_key e ∈ (deduplicate_errors l).map dedup_key := by
    rw [map_key_dedup]
    exact (firstOccursBy_mem _ _ _).mpr (List.mem_map_of_mem _ he)
  rcases List.mem_map.mp h1 with ⟨f, hf, hfk⟩
  exact ⟨f, hf, hfk⟩

/-- With pairwise distinct keys, filtering a list down to one key
leaves exactly the element carrying it. -/
theorem filter_key_singleton : ∀ (l : List DetectedError) (x : DetectedError),
    (l.map dedup_key).Nodup → x ∈ l →
    l.filter (fun e => dedup_key e = dedup_key x) = [x] := by
  intro l
  induction l with
  | nil => intro x _ hx; simp at hx
  | cons z zs ih =>
    intro x hnd hx
    simp only [List.map_cons, List.nodup_cons] at hnd
    rcases List.mem_cons.mp hx with rfl | hx'
    · rw [List.filter_cons_of_pos (by simp)]
      have hnil : zs.filter (fun e => dedup_key e = dedup_key x) = [] := by
        refine List.filter_eq_nil_iff.mpr ?_
        intro a ha
        simp only [decide_eq_true_eq]
        intro hk
        exact hnd.1 (hk ▸ List.mem_map_of_mem _ ha)
      rw [hnil]
    · have hzx : ¬ dedup_key z = dedup_key x := by
        intro hzk
        exact hnd.1 (hzk ▸ List.mem_map_of_mem _ hx')
      rw [List.filter_cons_of_neg (by simpa using hzx)]
      exact ih x hnd.2 hx'

/-- Replaying the group-and-select pass over a list whose groups are
all singletons returns the list unchanged. -/
theorem filterMap_singleton_groups (l : List DetectedError) : ∀ m : List DetectedError,
    (∀ x ∈ m, l.filter (fun e => dedup_key e = dedup_key x) = [x]) →
    ((m.map dedup_key).filterMap (select_group l)) = m := by
  intro m
  induction m with
  | nil => simp
  | cons x m ih =>
    intro h
    have hg : select_group l (dedup_key x) = some x := by
      unfold select_group
      rw [h x (List.mem_cons_self x m)]
      rfl
    rw [List.map_cons, List.filterMap_cons_some hg,
      ih (fun y hy => h y (List.mem_cons_of_mem _ hy))]

/-- A list with pairwise distinct dedup keys deduplicates to itself. -/
theorem dedup_of_nodup_keys (l : List DetectedError)
    (h : (l.map dedup_key).Nodup) : deduplicate_errors l = l := by
  unfold deduplicate_errors
  split
  · next hemp => exact (List.isEmpty_iff.mp hemp).symm
  · rw [firstOccursBy_of_nodup _ _ h]
    exact filterMap_singleton_groups l l (fun x hx => filter_key_singleton l x h hx)

end DedupLemmas

section ScoreLemmas

/-- Every severity multiplier is positive. -/
theorem severity_multipliers_pos (s : ErrorSeverity) : 0 < severity_multipliers s := by
  cases s <;> norm_num [severity_multipliers]

/-- Every severity multiplier is at most 1. -/
theorem severity_multipliers_le_one (s : ErrorSeverity) : severity_multipliers s ≤ 1 := by
  cases s <;> norm_num [severity_multipliers]

/-- Every category weight is positive. -/
theorem get_category_weight_pos (c : ErrorCategory) : 0 < get_category_weight c := by
  cases c <;> norm_num [get_category_weight]

/-- The per-match confidence always lands in [0, 1]. -/
theorem calculate_pattern_confidence_bounds (t : List Char) (s e : ℕ) :
    0 ≤ calculate_pattern_confidence t s e ∧ calculate_pattern_confidence t s e ≤ 1 := by
  simp only [calculate_pattern_confidence]
  refine ⟨le_min (by norm_num) ?_, min_le_left _ _⟩
  have h1 : (0:ℚ) ≤ min (2/10 : ℚ) ((keyword_count t s e : ℚ) * (5/100)) :=
    le_min (by norm_num) (by positivity)
  split_ifs <;> linarith

/-- The weighted-mean overall score, written with map-sums instead of
the accumulator fold. -/
theorem calculate_overall_error_score_eq (l : List DetectedError) :
    calculate_overall_error_score l =
      if l = [] ∨
          (l.map fun er => get_category_weight er.error_type.category *
            severity_multipliers er.severity).sum = 0
      then 0
      else min 1
        ((l.map fun er => er.confidence * get_category_weight er.error_type.category *
            severity_multipliers er.severity).sum /
         (l.map fun er => get_category_weight er.error_type.category *
            severity_multipliers er.severity).sum) := by
  by_cases hl : l = []
  · subst hl
    simp [calculate_overall_error_score]
  · simp only [calculate_overall_error_score, foldl_add_pair, zero_add,
      List.isEmpty_iff, if_neg hl, hl, false_or]
    simp

/-- The per-category scores, written with map-sums instead of the
accumulator fold. -/
theorem calculate_category_scores_eq (l : List DetectedError) :
    calculate_category_scores l =
      get_all_categories.map fun category =>
        (category,
          if l.filter (fun er => er.error_type.category = category) = [] then 0
          else ((l.filter fun er => er.error_type.category = category).map
                  (fun er => er.confidence * severity_multipliers er.severity)).sum /
               ((l.filter fun er => er.error_type.category = category).map
                  (fun er => severity_multipliers er.severity)).sum) := by
  unfold calculate_category_scores
  congr 1
  funext category
  by_cases hes : l.filter (fun er => er.error_type.category = category) = []
  · simp [hes]
  · have hpos : 0 < ((l.filter fun er => er.error_type.category = category).map
        (fun er => severity_multipliers er.severity)).sum := by
      apply List.sum_pos
      · intro x hx
        rcases List.mem_map.mp hx with ⟨er, _, rfl⟩
        exact severity_multipliers_pos _
      · simpa using hes
    simp only [foldl_add_pair, zero_add, List.isEmpty_iff, if_neg hes, hes,
      if_pos hpos]
    simp

end ScoreLemmas

section BoundLemmas

/-- Every detector-produced error's confidence is a pattern confidence,
hence in [0, 1]. -/
theorem detect_conf_bounds (M : Matcher) (t : List Char) :
    ∀ er ∈ detect_pattern_based_errors M t, 0 ≤ er.confidence ∧ er.confidence ≤ 1 := by
  intro er her
  rcases List.mem_flatMap.mp her with ⟨pe, hpe, hmem⟩
  rcases List.mem_map.mp hmem with ⟨span, hspan, rfl⟩
  exact calculate_pattern_confidence_bounds t span.1 span.2

/-- Deduplication only keeps input elements. -/
theorem mem_of_mem_dedup {l : List DetectedError} {e : DetectedError}
    (he : e ∈ deduplicate_errors l) : e ∈ l :=
  (mem_dedup_max he).1

/-- The overall score lies in [0, 1] whenever all confidences are
nonnegative. -/
theorem overall_score_bounds (l : List DetectedError)
    (h : ∀ er ∈ l, 0 ≤ er.confidence) :
    0 ≤ calculate_overall_error_score l ∧ calculate_overall_error_score l ≤ 1 := by
  rw [calculate_overall_error_score_eq]
  split_ifs with hc
  · norm_num
  · refine ⟨le_min (by norm_num) ?_, min_le_left _ _⟩
    apply div_nonneg
    · apply List.sum_nonneg
      intro x hx
      rcases List.mem_map.mp hx with ⟨er, her, rfl⟩
      have h1 := h er her
      have h2 := get_category_weight_pos er.error_type.category
      have h3 := severity_multipliers_pos er.severity
      positivity
    · apply List.sum_nonneg
      intro x hx
      rcases List.mem_map.mp hx with ⟨er, her, rfl⟩
      have h2 := get_category_weight_pos er.error_type.category
      have h3 := severity_multipliers_pos er.severity
      positivity

/-- Every per-category score lies in [0, 1] whenever all confidences
do. -/
theorem category_scores_bounds (l : List DetectedError)
    (h : ∀ er ∈ l, 0 ≤ er.confidence ∧ er.confidence ≤ 1) :
    ∀ cs ∈ calculate_category_scores l, 0 ≤ cs.2 ∧ cs.2 ≤ 1 := by
  intro cs hcs
  rw [calculate_category_scores_eq] at hcs
  rcases List.mem_map.mp hcs with ⟨category, hcat, rfl⟩
  dsimp only
  split_ifs with hc
  · norm_num
  · have hpos : 0 < ((l.filter fun er => er.error_type.category = category).map
        fun er => severity_multipliers er.severity).sum := by
      apply List.sum_pos
      · intro x hx
        rcases List.mem_map.mp hx with ⟨er, _, rfl⟩
        exact severity_multipliers_pos _
      · simpa using hc
    constructor
    · apply div_nonneg _ (le_of_lt hpos)
      apply List.sum_nonneg
      intro x hx
      rcases List.mem_map.mp hx with ⟨er, her, rfl⟩
      have h1 := (h er (List.mem_of_mem_filter her)).1
      have h2 := severity_multipliers_pos er.severity
      positivity
    · rw [div_le_one hpos]
      apply List.sum_le_sum
      intro er her
      exact mul_le_of_le_one_left (le_of_lt (severity_multipliers_pos er.severity))
        (h er (List.mem_of_mem_filter her)).2

/-- The empty-defaulted mean confidence lies in [0, 1] whenever all
confidences do. -/
theorem mean_confidence_bounds (l : List DetectedError)
    (h : ∀ er ∈ l, 0 ≤ er.confidence ∧ er.confidence ≤ 1) :
    0 ≤ (if l.isEmpty then (1:ℚ)
         else l.foldl (fun acc er => acc + er.confidence) 0 / (l.length : ℚ)) ∧
    (if l.isEmpty then (1:ℚ)
     else l.foldl (fun acc er => acc + er.confidence) 0 / (l.length : ℚ)) ≤ 1 := by
  split_ifs with hemp
  · norm_num
  · rw [foldl_add_map, zero_add]
    have hne : l ≠ [] := by simpa [List.isEmpty_iff] using hemp
    have hlen : 0 < (l.length : ℚ) := by
      exact_mod_cast List.length_pos.mpr hne
    constructor
    · apply div_nonneg _ (le_of_lt hlen)
      apply List.sum_nonneg
      intro x hx
      rcases List.mem_map.mp hx with ⟨er, her, rfl⟩
      exact (h er her).1
    · rw [div_le_one hlen]
      calc ((l.map fun er => er.confidence).sum)
          ≤ (l.map fun er => er.confidence).length • (1:ℚ) := by
            apply List.sum_le_card_nsmul
            intro x hx
            rcases List.mem_map.mp hx with ⟨er, her, rfl⟩
            exact (h er her).2
        _ = (l.length : ℚ) := by simp [nsmul_eq_mul]

end BoundLemmas

/-- `String.toList` is the underlying character list. -/
theorem strToList_eq (s : String) : s.toList = s.data := rfl

/-- An if-chain of booleans returning `true` early is their
disjunction. -/
theorem ite_or_bool : ∀ a b c : Bool,
    (if a then true else if b then true else c) = (a || b || c) := by
  decide

/-- Claim C1: the claim's confidence formula applies the `> 50`
length bonus before the `> 20` one; the code tests `> 20` first and
its `elif > 50` branch is unreachable (dead code — a slip), so a match
of length 60 with zero context keyword hits scores 0.6 + 0.1 = 0.7,
not the 0.8 the claim states.  The claim's other two examples hold:
length 15 with zero hits gives 0.6, and length 30 with exactly 2
keyword hits gives 0.6 + 0.1 + 0.1 = 0.8. -/
theorem c1_confidence_length_bonus_dead_branch :
    calculate_pattern_confidence (List.replicate 60 'a') 0 60 = 7/10 ∧
    ¬ calculate_pattern_confidence (List.replicate 60 'a') 0 60 = 8/10 ∧
    calculate_pattern_confidence (List.replicate 15 'a') 0 15 = 6/10 ∧
    keyword_count (List.replicate 30 'a' ++ " wrong mistake".toList) 0 30 = 2 ∧
    calculate_pattern_confidence (List.replicate 30 'a' ++ " wrong mistake".toList) 0 30
      = 8/10 := by
  have hk60 : keyword_count (List.replicate 60 'a') 0 60 = 0 := by decide
  have hk15 : keyword_count (List.replicate 15 'a') 0 15 = 0 := by decide
  have hk30 : keyword_count (List.replicate 30 'a' ++ " wrong mistake".toList) 0 30 = 2 := by
    decide
  have h60 : calculate_pattern_confidence (List.replicate 60 'a') 0 60 = 7/10 := by
    simp only [calculate_pattern_confidence, hk60]
    norm_num [min_def]
  refine ⟨h60, by rw [h60]; norm_num, ?_, hk30, ?_⟩
  · simp only [calculate_pattern_confidence, hk15]
    norm_num [min_def]
  · simp only [calculate_pattern_confidence, hk30]
    norm_num [min_def]

/-- Claim C2: search returns exactly the definitions with (a) some
keyword occurring case-insensitively inside the query, or (b) the
lowercased query occurring inside the lowercased description, or (c)
some pattern matching the query case-insensitively; each matching
definition appears at most once; `search "incorrect"` returns the
"Factual Incorrectness" definition while `search "inc"` does not. -/
theorem c2_search_membership_semantics :
    (∀ (query : String) (et : ErrorType),
      et ∈ search_error_types query ↔
        et ∈ error_types_list ∧
          ((∃ kw ∈ et.keywords, (pyLower kw).toList <:+: (pyLower query).toList) ∨
           (pyLower query).toList <:+: (pyLower et.description).toList ∨
           ∃ p ∈ et.patterns, Regex.searchIn p (pyLower query).toList = true)) ∧
    (∀ query : String, (search_error_types query).Nodup) ∧
    ((search_error_types "incorrect").any fun et => et.name = "Factual Incorrectness") = true ∧
    ((search_error_types "inc").all fun et => et.name ≠ "Factual Incorrectness") = true := by
  have hnodup : error_types_list.Nodup := by decide
  refine ⟨?_, ?_, by decide, by decide⟩
  · intro query et
    simp only [search_error_types, List.mem_filter, ite_or_bool, Bool.or_eq_true,
      List.any_eq_true, pyInStr, listInfixB_iff, strToList_eq]
    split_ifs with hA hB
    · simp [hA]
    · simp [hA, hB]
    · simp [hA, hB, List.any_eq_true]
  · intro query
    simp only [search_error_types]
    exact hnodup.filter _

/-- Claim C3: the overall error score is the severity- and
category-weighted mean of the confidences, clamped to 1, with the
empty-list and zero-denominator cases defined as 0; the severity
multipliers are critical 1.0, high 0.8, medium 0.6, low 0.4,
negligible 0.2. -/
theorem c3_overall_error_score_formula :
    (∀ l : List DetectedError,
      calculate_overall_error_score l =
        if l = [] ∨ (l.map fun er => get_category_weight er.error_type.category *
              severity_multipliers er.severity).sum = 0
        then 0
        else min 1
          ((l.map fun er => er.confidence * get_category_weight er.error_type.category *
              severity_multipliers er.severity).sum /
           (l.map fun er => get_category_weight er.error_type.category *
              severity_multipliers er.severity).sum)) ∧
    severity_multipliers .critical = 1 ∧ severity_multipliers .high = 8/10 ∧
    severity_multipliers .medium = 6/10 ∧ severity_multipliers .low = 4/10 ∧
    severity_multipliers .negligible = 2/10 :=
  ⟨calculate_overall_error_score_eq, by norm_num [severity_multipliers],
   by norm_num [severity_multipliers], by norm_num [severity_multipliers],
   by norm_num [severity_multipliers], by norm_num [severity_multipliers]⟩

/-- Claim C4: deduplication groups by (error-type name, first 50
evidence characters) and keeps one highest-confidence element per
group: it is idempotent, every kept element dominates its key group,
every input key stays represented, kept keys are pairwise distinct,
and of two errors sharing a key the strictly-lower-confidence one
never survives. -/
theorem c4_deduplication_idempotent_max :
    ∀ l : List DetectedError,
      deduplicate_errors (deduplicate_errors l) = deduplicate_errors l ∧
      (∀ e ∈ deduplicate_errors l, e ∈ l ∧
        ∀ e2 ∈ l, dedup_key e2 = dedup_key e → e2.confidence ≤ e.confidence) ∧
      (∀ e ∈ l, ∃ f ∈ deduplicate_errors l, dedup_key f = dedup_key e) ∧
      ((deduplicate_errors l).map dedup_key).Nodup ∧
      (∀ e e2, e ∈ l → e2 ∈ l → dedup_key e = dedup_key e2 →
        e.confidence < e2.confidence → e ∉ deduplicate_errors l) := by
  intro l
  refine ⟨dedup_of_nodup_keys _ (dedup_keys_nodup l), fun e he => mem_dedup_max he,
    fun e he => dedup_exists_rep l e he, dedup_keys_nodup l, ?_⟩
  intro e e2 he he2 hk hcl hmem
  exact absurd ((mem_dedup_max hmem).2 e2 he2 hk.symm) (not_le.mpr hcl)

/-- Witness for C4: two concrete detections sharing a dedup key with
confidences 0.6 < 0.8 — the lower one does not survive, and the
deduplicated two-element list is a fixed point of deduplication. -/
theorem c4_witness :
    sample_error_low ∉ deduplicate_errors [sample_error_low, sample_error_high] ∧
    deduplicate_errors (deduplicate_errors [sample_error_low, sample_error_high]) =
      deduplicate_errors [sample_error_low, sample_error_high] :=
  ⟨(c4_deduplication_idempotent_max [sample_error_low, sample_error_high]).2.2.2.2
      sample_error_low sample_error_high (by simp) (by simp) rfl
      (by norm_num [sample_error_low, sample_error_high]),
   (c4_deduplication_idempotent_max [sample_error_low, sample_error_high]).1⟩

/-- Claim C5: the per-category scores of every classify result are, in
fixed category order, the severity-weighted means of the confidences
of that category's deduplicated errors (no category weight), with 0
for a category without errors. -/
theorem c5_category_scores_formula (M : Matcher)
    (response_id prompt response : String) (b : Bool) :
    (classify_errors M response_id prompt response b).category_scores =
      get_all_categories.map fun category =>
        (category,
          if (classify_errors M response_id prompt response b).detected_errors.filter
              (fun er => er.error_type.category = category) = [] then 0
          else (((classify_errors M response_id prompt response b).detected_errors.filter
                  fun er => er.error_type.category = category).map
                  fun er => er.confidence * severity_multipliers er.severity).sum /
               (((classify_errors M response_id prompt response b).detected_errors.filter
                  fun er => er.error_type.category = category).map
                  fun er => severity_multipliers er.severity).sum) := by
  have h := calculate_category_scores_eq
    (deduplicate_errors (detect_pattern_based_errors M response.toList))
  simpa [classify_errors] using h

/-- Claim C6: every classify result has overall score, overall
confidence, per-category scores, and per-error confidences in [0, 1],
and its category-score mapping carries exactly one entry per category
of the fixed 10-category set. -/
theorem c6_result_invariants (M : Matcher)
    (response_id prompt response : String) (b : Bool) :
    (0 ≤ (classify_errors M response_id prompt response b).overall_error_score ∧
      (classify_errors M response_id prompt response b).overall_error_score ≤ 1) ∧
    (0 ≤ (classify_errors M response_id prompt response b).confidence_score ∧
      (classify_errors M response_id prompt response b).confidence_score ≤ 1) ∧
    (∀ cs ∈ (classify_errors M response_id prompt response b).category_scores,
      0 ≤ cs.2 ∧ cs.2 ≤ 1) ∧
    (∀ er ∈ (classify_errors M response_id prompt response b).detected_errors,
      0 ≤ er.confidence ∧ er.confidence ≤ 1) ∧
    (classify_errors M response_id prompt response b).category_scores.length =
      get_all_categories.length := by
  have hconf : ∀ er ∈ deduplicate_errors (detect_pattern_based_errors M response.toList),
      0 ≤ er.confidence ∧ er.confidence ≤ 1 :=
    fun er her => detect_conf_bounds M response.toList er (mem_of_mem_dedup her)
  refine ⟨?_, ?_, ?_, ?_, ?_⟩
  · simpa [classify_errors] using
      overall_score_bounds _ (fun er her => (hconf er her).1)
  · simpa [classify_errors] using mean_confidence_bounds _ hconf
  · intro cs hcs
    refine category_scores_bounds _ hconf cs ?_
    simpa [classify_errors] using hcs
  · intro er her
    refine hconf er ?_
    simpa [classify_errors] using her
  · simp [classify_errors, calculate_category_scores]

/-- Claim C7: when no compiled pattern reports any match in the
response, classify returns no detected errors, overall score 0,
overall confidence 1, and all category scores 0 (detection is a total
function, so it cannot raise). -/
theorem c7_no_matches_clean_result (M : Matcher)
    (response_id prompt response : String) (b : Bool)
    (h : ∀ pe ∈ compiled_patterns, M pe.1 response.toList = []) :
    (classify_errors M response_id prompt response b).detected_errors = [] ∧
    (classify_errors M response_id prompt response b).overall_error_score = 0 ∧
    (classify_errors M response_id prompt response b).confidence_score = 1 ∧
    ∀ cs ∈ (classify_errors M response_id prompt response b).category_scores,
      cs.2 = 0 := by
  have hdet : detect_pattern_based_errors M response.toList = [] := by
    unfold detect_pattern_based_errors
    rw [List.flatMap_eq_nil_iff]
    intro pe hpe
    rw [h pe hpe]
    rfl
  have hded : deduplicate_errors (detect_pattern_based_errors M response.toList) = [] := by
    rw [hdet]
    rfl
  have hded2 : deduplicate_errors (detect_pattern_based_errors M response.data) = [] := hded
  refine ⟨by simp [classify_errors, hded, hded2], by simp [classify_errors, hded, hded2,
      calculate_overall_error_score], by simp [classify_errors, hded, hded2], ?_⟩
  intro cs hcs
  have hcs2 : cs ∈ calculate_category_scores [] := by
    rw [← hded2]
    simpa [classify_errors] using hcs
  rw [calculate_category_scores_eq] at hcs2
  rcases List.mem_map.mp hcs2 with ⟨category, hcat, rfl⟩
  simp

/-- Witness for C7: the always-empty matcher on the empty response
yields the clean result. -/
theorem c7_witness :
    (classify_errors (fun _ _ => []) "r1" "p1" "" false).detected_errors = [] ∧
    (classify_errors (fun _ _ => []) "r1" "p1" "" false).overall_error_score = 0 ∧
    (classify_errors (fun _ _ => []) "r1" "p1" "" false).confidence_score = 1 ∧
    ∀ cs ∈ (classify_errors (fun _ _ => []) "r1" "p1" "" false).category_scores,
      cs.2 = 0 :=
  c7_no_matches_clean_result (fun _ _ => []) "r1" "p1" "" false (fun pe _ => rfl)

/-- Claim C8: the overall confidence of a classify result is the
arithmetic mean of the deduplicated errors' confidences, and 1.0 when
no errors were detected. -/
theorem c8_overall_confidence_mean (M : Matcher)
    (response_id prompt response : String) (b : Bool) :
    (classify_errors M response_id prompt response b).confidence_score =
      if (classify_errors M response_id prompt response b).detected_errors = [] then 1
      else (((classify_errors M response_id prompt response b).detected_errors.map
              fun er => er.confidence).sum) /
           (((classify_errors M response_id prompt response b).detected_errors.length : ℚ)) := by
  simp only [classify_errors]
  rw [foldl_add_map, zero_add]
  simp [List.isEmpty_iff]

/-- Claim C9: classify is a pure function that ignores both the prompt
argument and the model-assisted-analysis flag. -/
theorem c9_prompt_and_flag_ignored (M : Matcher) (response_id response : String)
    (p1 p2 : String) (b1 b2 : Bool) :
    classify_errors M response_id p1 response b1 =
      classify_errors M response_id p2 response b2 := rfl

/-- Claim C10: the empty query matches every definition through the
description condition (the empty string is a substring of every
description), so search returns the complete catalog. -/
theorem c10_empty_query_full_catalog :
    search_error_types "" = error_types_list ∧
    (error_types_list.all fun et => pyInStr (pyLower "") (pyLower et.description)) = true := by
  constructor
  · decide
  · decide
